import Mathlib

/-!
Verification of the binary frame codec and session logic of `src/voice/asr.py`
(Volcano Engine bidirectional ASR CLI client).

The Python source is shallowly embedded: bytes are `List Nat` (each element a
byte value 0..255), Python `str` is Lean `String`, JSON values are the `Json`
inductive below, and Python functions that can raise are modelled with
`Option`/explicit error constructors.  The standard-library collaborators that
the source calls (`gzip.compress`/`gzip.decompress` and
`json.dumps`/`json.loads`) are not part of the repository; they are taken as
parameters of the embedded functions, and concrete small models of them are
supplied where theorems are evaluated on concrete inputs.
-/

/-- JSON values as produced by `json.loads` / consumed by `json.dumps`:
objects keep insertion order, mirroring Python dicts. -/
inductive Json where
  | null : Json
  | bool : Bool → Json
  | num : Int → Json
  | str : String → Json
  | arr : List Json → Json
  | obj : List (String × Json) → Json

/-- Python `d[k]` lookup on a JSON value: only objects (dicts) support string
lookup; the first binding with the key wins (Python dicts have unique keys). -/
def dictGet : Json → String → Option Json
  | .obj fs, k => (fs.find? (fun kv => kv.1 == k)).map (fun kv => kv.2)
  | _, _ => none

/-- Python `d[k] = v` on a dict's field list: updates the existing binding in
place (keeping insertion order) or appends a new one, as CPython dicts do. -/
def setKey (fs : List (String × Json)) (k : String) (v : Json) : List (String × Json) :=
  if fs.any (fun kv => kv.1 == k) then
    fs.map (fun kv => if kv.1 == k then (k, v) else kv)
  else fs ++ [(k, v)]

/-- The four big-endian base-256 digits of `n` (most significant first). -/
def be32digits (n : Nat) : List Nat :=
  [n / 16777216 % 256, n / 65536 % 256, n / 256 % 256, n % 256]

/-- Model of CPython `struct.pack(">I", n)`: a 4-byte big-endian encoding,
raising `struct.error` (modelled as `none`) when `n` does not fit in 32 bits. -/
def pack_be32 (n : Nat) : Option (List Nat) :=
  if n < 4294967296 then some (be32digits n) else none

/-- Model of CPython `struct.unpack(">I", b)[0]` on a 4-byte buffer. -/
def unpack_be32 (l : List Nat) : Nat :=
  l.getD 0 0 * 16777216 + l.getD 1 0 * 65536 + l.getD 2 0 * 256 + l.getD 3 0

/-- UTF-8 continuation byte test (0x80..0xBF). -/
def utf8Cont (b : Nat) : Bool := decide (128 ≤ b ∧ b ≤ 191)

/-- Allowed first continuation byte after a 3-byte lead, per CPython's UTF-8
decoder (excludes overlong encodings and surrogates). -/
def utf8Cont1E (b c1 : Nat) : Bool :=
  if b = 224 then decide (160 ≤ c1 ∧ c1 ≤ 191)
  else if b = 237 then decide (128 ≤ c1 ∧ c1 ≤ 159)
  else utf8Cont c1

/-- Allowed first continuation byte after a 4-byte lead, per CPython's UTF-8
decoder (excludes overlong encodings and values above U+10FFFF). -/
def utf8Cont1F (b c1 : Nat) : Bool :=
  if b = 240 then decide (144 ≤ c1 ∧ c1 ≤ 191)
  else if b = 244 then decide (128 ≤ c1 ∧ c1 ≤ 143)
  else utf8Cont c1

/-- Tokenised UTF-8 decoding of a byte sequence, modelling CPython's decoder:
`some c` is a correctly decoded scalar value, `none` is one decoding error
(an invalid sequence; the maximal valid subpart of a truncated sequence is
consumed as a single error, an invalid start byte is a one-byte error). -/
def utf8Tokens : List Nat → List (Option Char)
  | [] => []
  | b :: rest =>
    if b < 128 then some (Char.ofNat b) :: utf8Tokens rest
    else if 194 ≤ b ∧ b ≤ 223 then
      match rest with
      | c1 :: rest2 =>
        if utf8Cont c1 then
          some (Char.ofNat ((b - 192) * 64 + (c1 - 128))) :: utf8Tokens rest2
        else none :: utf8Tokens (c1 :: rest2)
      | [] => [none]
    else if 224 ≤ b ∧ b ≤ 239 then
      match rest with
      | c1 :: rest2 =>
        if utf8Cont1E b c1 then
          match rest2 with
          | c2 :: rest3 =>
            if utf8Cont c2 then
              some (Char.ofNat ((b - 224) * 4096 + (c1 - 128) * 64 + (c2 - 128))) ::
                utf8Tokens rest3
            else none :: utf8Tokens (c2 :: rest3)
          | [] => [none]
        else none :: utf8Tokens (c1 :: rest2)
      | [] => [none]
    else if 240 ≤ b ∧ b ≤ 244 then
      match rest with
      | c1 :: rest2 =>
        if utf8Cont1F b c1 then
          match rest2 with
          | c2 :: rest3 =>
            if utf8Cont c2 then
              match rest3 with
              | c3 :: rest4 =>
                if utf8Cont c3 then
                  some (Char.ofNat ((b - 240) * 262144 + (c1 - 128) * 4096 +
                    (c2 - 128) * 64 + (c3 - 128))) :: utf8Tokens rest4
                else none :: utf8Tokens (c3 :: rest4)
              | [] => [none]
            else none :: utf8Tokens (c2 :: rest3)
          | [] => [none]
        else none :: utf8Tokens (c1 :: rest2)
      | [] => [none]
    else none :: utf8Tokens rest
termination_by l => l.length
decreasing_by all_goals simp <;> omega

/-- UTF-8 decoding with an error handler, as in Python `bytes.decode("utf-8",
errors=...)`.  `replaceMode = false` is `errors="ignore"` (invalid sequences
are dropped) — the mode the source uses.  `replaceMode = true` is
`errors="replace"` (invalid sequences become U+FFFD) — modelled from the
spec's words, which describe invalid sequences as "replaced". -/
def utf8Decode (replaceMode : Bool) (l : List Nat) : List Char :=
  ((utf8Tokens l).map (fun t =>
    match t with
    | some c => [c]
    | none => if replaceMode then [Char.ofNat 65533] else [])).flatten

/-- Model of Python `s.encode("utf-8")` on one scalar value. -/
def utf8EncodeChar (c : Nat) : List Nat :=
  if c < 128 then [c]
  else if c < 2048 then [192 + c / 64, 128 + c % 64]
  else if c < 65536 then [224 + c / 4096, 128 + c / 64 % 64, 128 + c % 64]
  else [240 + c / 262144, 128 + c / 4096 % 64, 128 + c / 64 % 64, 128 + c % 64]

/-- Model of Python `s.encode("utf-8")` on a string. -/
def utf8Encode (s : String) : List Nat :=
  (s.toList.map (fun c => utf8EncodeChar c.toNat)).flatten

/-- `construct_full_client_request` from `asr.py`: gzip-compressed JSON payload
behind the fixed header `11 10 11 00` and a 4-byte big-endian size.  `gzipC`
and `jdumps` stand for `gzip.compress` and `json.dumps`; the result is `none`
when the size does not fit `struct.pack(">I", ...)`. -/
def construct_full_client_request (gzipC : List Nat → List Nat)
    (jdumps : Json → String) (payload : Json) : Option (List Nat) :=
  let payload_gzip := gzipC (utf8Encode (jdumps payload))
  (pack_be32 payload_gzip.length).map
    (fun size => [17, 16, 17, 0] ++ size ++ payload_gzip)

/-- `construct_audio_only_request` from `asr.py`: raw audio behind the header
`11 (0x2<<4|flags) 00 00` and the 4-byte big-endian uncompressed length;
`flags = 0b0010` exactly when this is the final chunk.  `none` models the
`struct.error` raised when the length does not fit 32 bits. -/
def construct_audio_only_request (audio_data : List Nat) (is_last : Bool) :
    Option (List Nat) :=
  let flags := if is_last then 2 else 0
  let msg_type_flags := 2 * 16 + flags
  (pack_be32 audio_data.length).map
    (fun size => [17, msg_type_flags, 0, 0] ++ size ++ audio_data)

/-- Message type extracted by `parse_response`: `(header[1] >> 4) & 0x0F`. -/
def msgTypeOf (data : List Nat) : Nat := data.getD 1 0 / 16 % 16

/-- Compression method extracted by `parse_response`: `header[2] & 0x0F`
(the THIRD header byte, offset 2). -/
def compressionOf (data : List Nat) : Nat := data.getD 2 0 % 16

/-- Sequence number extracted by `parse_response`: big-endian `data[4:8]`. -/
def sequenceOf (data : List Nat) : Nat := unpack_be32 ((data.drop 4).take 4)

/-- Declared payload size extracted by `parse_response`: big-endian `data[8:12]`. -/
def payloadSizeOf (data : List Nat) : Nat := unpack_be32 ((data.drop 8).take 4)

/-- The payload slice `data[12 : 12 + payload_size]`: silently truncated to the
available bytes, exactly as a Python slice. -/
def rawPayload (data : List Nat) : List Nat :=
  (data.drop 12).take (payloadSizeOf data)

/-- The payload after the optional gzip stage of `parse_response`: when the
compression nibble is 1 decompression is attempted and any failure is
swallowed (`except: pass`), leaving the payload unmodified.  `gunzip` stands
for `gzip.decompress`, with `none` modelling a raised exception. -/
def decodedPayload (gunzip : List Nat → Option (List Nat)) (data : List Nat) :
    List Nat :=
  if compressionOf data = 1 then (gunzip (rawPayload data)).getD (rawPayload data)
  else rawPayload data

/-- `payload.decode("utf-8", errors="ignore")` applied to the (possibly
decompressed) payload. -/
def payloadStr (gunzip : List Nat → Option (List Nat)) (data : List Nat) :
    String :=
  String.mk (utf8Decode false (decodedPayload gunzip data))

/-- Outcome of a Python call: a returned value or an uncaught exception. -/
inductive PyResult where
  | ret : Json → PyResult
  | exn : PyResult

/-- `parse_response` from `asr.py`.  `jloads` stands for `json.loads` (`none`
models a raised `json.JSONDecodeError`).  A buffer shorter than 12 bytes
returns the error dict; a payload parsing as a JSON object gets `_msg_type`
and `_sequence` set on it; a payload failing to parse returns the fallback
dict carrying the raw text.  A payload parsing as JSON but not as an object
makes `result["_msg_type"] = msg_type` raise an uncaught `TypeError`, which
only `except json.JSONDecodeError` guards against — modelled as `.exn`. -/
def parse_response (gunzip : List Nat → Option (List Nat))
    (jloads : String → Option Json) (data : List Nat) : PyResult :=
  if data.length < 12 then .ret (.obj [("error", .str "Response too short")])
  else
    match jloads (payloadStr gunzip data) with
    | some (.obj fs) =>
      .ret (.obj (setKey (setKey fs "_msg_type" (.num (msgTypeOf data)))
        "_sequence" (.num (sequenceOf data))))
    | some _ => .exn
    | none =>
      .ret (.obj [("_msg_type", .num (msgTypeOf data)),
        ("_sequence", .num (sequenceOf data)),
        ("raw", .str (payloadStr gunzip data))])

/-- Modelled from the spec: the server-frame layout sentence places the
compression nibble in the FOURTH header byte (offset 3):
`[version/reserved][msgType/flags][reserved][compression(low nibble)]...`.
This is the gzip stage of the decoder as that sentence describes it; the
source (`decodedPayload`) reads offset 2 instead. -/
def decodedPayloadSpecOffset3 (gunzip : List Nat → Option (List Nat))
    (data : List Nat) : List Nat :=
  if data.getD 3 0 % 16 = 1 then (gunzip (rawPayload data)).getD (rawPayload data)
  else rawPayload data

/-- Inserts a 4-byte big-endian sequence field between the header and the size
field of a client frame, producing the server layout `parse_response` reads. -/
def insertSeq (seqBytes : List Nat) (msg : List Nat) : List Nat :=
  msg.take 4 ++ seqBytes ++ msg.drop 4

/-- The decode "recovers the original record's JSON content": the outcome is a
returned dict in which every field of the original record is still present
with its original value. -/
def recoversContent (out : PyResult) (record : Json) : Prop :=
  match out, record with
  | .ret j, .obj fs => ∀ kv ∈ fs, dictGet j kv.1 = some kv.2
  | _, _ => False

/-- The audio chunking loop of `recognize`:
`for i in range(0, len(audio_data), chunk_size)` with `chunk_size = 16000`,
sending `construct_audio_only_request(chunk, is_last)` where
`is_last = (i + chunk_size) >= len(audio_data)`.  Returns the list of frames
sent, in order (`struct.error`, impossible for chunks of at most 16000 bytes,
would kill the sender task, modelled by stopping). -/
def sendAudio (audio : List Nat) : List (List Nat) :=
  if audio.isEmpty then []
  else
    (construct_audio_only_request (audio.take 16000)
        (decide (audio.length ≤ 16000))).elim
      [] (fun msg => msg :: sendAudio (audio.drop 16000))
termination_by audio.length
decreasing_by
  simp_all [List.isEmpty_iff]
  have h0 : 0 < audio.length := List.length_pos.mpr (by assumption)
  simp [List.length_drop]
  omega

/-- Whether an encoded frame carries the final-chunk flag: the low nibble of
header byte 1 equals `0b0010`. -/
def isFinalFrame (msg : List Nat) : Bool := msg.getD 1 0 % 16 == 2

/-- Python whitespace characters stripped by `str.strip()` (the ASCII ones,
which cover the payloads this client handles). -/
def pySpaceChar (c : Char) : Bool :=
  c == ' ' || c == Char.ofNat 9 || c == Char.ofNat 10 || c == Char.ofNat 13 ||
    c == Char.ofNat 11 || c == Char.ofNat 12

/-- Python `s.strip()`. -/
def pyStrip (s : String) : String :=
  String.mk (((s.toList.dropWhile pySpaceChar).reverse.dropWhile pySpaceChar).reverse)

/-- Python truthiness of a JSON value (`if x:`). -/
def pyTruthy : Json → Bool
  | .null => false
  | .bool b => b
  | .num n => n != 0
  | .str s => s != ""
  | .arr l => !l.isEmpty
  | .obj fs => !fs.isEmpty

/-- Python `x == n` for an int literal `n` (only an int compares equal). -/
def pyEqNum (j : Json) (n : Int) : Bool :=
  match j with
  | .num m => m == n
  | _ => false

/-- Outcome of one iteration of the receive loop on a decoded frame: the new
`final_text` and whether the loop breaks, or an uncaught exception. -/
inductive AsrStep where
  | ok : String → Bool → AsrStep
  | raised : AsrStep
deriving DecidableEq

/-- The per-frame body of the receive loop in `recognize`, applied to an
already parsed result dict and the current `final_text`.  Message type 15
breaks immediately; message type 9 with a dict `result` field takes
`res.get("text", "").strip()`; only a non-empty stripped text updates
`final_text`, and only then is `utterances[0].get("definite")` consulted to
break.  `.raised` models the uncaught exceptions of the corner cases
(`.strip()` on a non-string, indexing/`.get` on non-list/non-dict values). -/
def recvStep (result : Json) (final_text : String) : AsrStep :=
  let mt := (dictGet result "_msg_type").getD (.num 0)
  if pyEqNum mt 15 then .ok final_text true
  else if pyEqNum mt 9 then
    match dictGet result "result" with
    | none => .ok final_text false
    | some res =>
      match res with
      | .obj resFields =>
        match (dictGet (.obj resFields) "text").getD (.str "") with
        | .str s =>
          let text := pyStrip s
          if text = "" then .ok final_text false
          else
            let utterances := (dictGet (.obj resFields) "utterances").getD (.arr [])
            if pyTruthy utterances then
              match utterances with
              | .arr (u :: _) =>
                match u with
                | .obj _ =>
                  if pyTruthy ((dictGet u "definite").getD .null) then .ok text true
                  else .ok text false
                | _ => .raised
              | _ => .raised
            else .ok text false
        | _ => .raised
      | _ => .ok final_text false
  else .ok final_text false

/-- A small concrete stand-in for `gzip.compress` used to evaluate theorems on
concrete inputs: like the real one it prepends the gzip magic/header bytes and
transforms the body so that the compressed stream does not contain the
plaintext. -/
def gzipC₀ (b : List Nat) : List Nat :=
  [31, 139, 8, 0] ++ b.map (fun x => (x + 1) % 256)

/-- Concrete stand-in for `gzip.decompress`, inverse of `gzipC₀`: like the real
one it raises (returns `none`) when the magic header bytes are absent. -/
def gunzip₀ (b : List Nat) : Option (List Nat) :=
  if b.take 4 = [31, 139, 8, 0] then some ((b.drop 4).map (fun x => (x + 255) % 256))
  else none

/-- A `gzip.decompress` stand-in for frames where decompression is never
reached or always fails. -/
def gunzipNone (_ : List Nat) : Option (List Nat) := none

/-- The concrete request record used for concrete evaluations. -/
def rec₀ : Json := .obj [("a", .num 1)]

/-- Concrete stand-in for `json.dumps`, tabulated at the record used in the
concrete evaluations: CPython's `json.dumps({"a": 1})` (default separators)
is exactly the ASCII text below. -/
def jdumps₀ : Json → String
  | .obj [("a", .num 1)] => "\x7b\x22a\x22: 1\x7d"
  | _ => ""

/-- Concrete stand-in for `json.loads`: recognises exactly the serialisation of
`rec₀` (like the real one it fails on the gzip binary garbage it is shown in
the evaluations). -/
def jloads₀ (s : String) : Option Json :=
  if s = jdumps₀ rec₀ then some rec₀ else none

/-- Concrete stand-in for `json.loads` recognising the payload `"5"`, which
the real `json.loads` parses as the int `5` (a non-dict JSON value). -/
def jloads5 (s : String) : Option Json :=
  if s = "5" then some (.num 5) else none

/-- A `json.loads` stand-in that always fails to parse. -/
def jloadsNone (_ : String) : Option Json := none

/-! ## Helper lemmas -/

theorem unpack_be32_digits (n : Nat) (h : n < 4294967296) :
    unpack_be32 (be32digits n) = n := by
  simp [unpack_be32, be32digits]
  omega

theorem stringMk_toList (s : String) : String.mk s.toList = s := rfl

theorem utf8Tokens_ascii (l : List Char) (h : ∀ c ∈ l, c.toNat < 128) :
    utf8Tokens ((l.map (fun c => utf8EncodeChar c.toNat)).flatten) = l.map some := by
  induction l with
  | nil => simp [utf8Tokens]
  | cons c t ih =>
    have hc : c.toNat < 128 := h c (by simp)
    have ht : ∀ x ∈ t, x.toNat < 128 := fun x hx => h x (by simp [hx])
    have henc : utf8EncodeChar c.toNat = [c.toNat] := by simp [utf8EncodeChar, hc]
    rw [List.map_cons, List.flatten_cons, henc, List.cons_append, List.nil_append,
      utf8Tokens.eq_def]
    simp [hc, Char.ofNat_toNat, ih ht]

theorem flatten_map_some (f : Option Char → List Char)
    (hf : ∀ c, f (some c) = [c]) (l : List Char) :
    ((l.map some).map f).flatten = l := by
  induction l with
  | nil => simp
  | cons c t ih =>
    rw [List.map_cons, List.map_cons, List.flatten_cons, hf, ih]
    rfl

theorem utf8Decode_encode (mode : Bool) (s : String)
    (h : ∀ c ∈ s.toList, c.toNat < 128) :
    utf8Decode mode (utf8Encode s) = s.toList := by
  unfold utf8Decode utf8Encode
  rw [utf8Tokens_ascii s.toList h]
  exact flatten_map_some _ (fun c => rfl) _

theorem utf8Decode_ignore_sublist (l : List Nat) :
    (utf8Decode false l).Sublist (utf8Decode true l) := by
  unfold utf8Decode
  induction utf8Tokens l with
  | nil => simp
  | cons t ts ih =>
    cases t with
    | none => simpa using ih.cons (Char.ofNat 65533)
    | some c => simpa using ih.cons₂ c

theorem find?_key_eq (fs : List (String × Json)) (k : String) (v : Json)
    (hm : (k, v) ∈ fs) (hn : (fs.map Prod.fst).Nodup) :
    fs.find? (fun kv => kv.1 == k) = some (k, v) := by
  induction fs with
  | nil => simp at hm
  | cons hd t ih =>
    rw [List.map_cons] at hn
    obtain ⟨hn1, hn2⟩ := List.nodup_cons.mp hn
    rcases List.mem_cons.mp hm with hm | hm
    · subst hm
      simp [List.find?_cons]
    · have hk : (hd.1 == k) = false := by
        simp only [beq_eq_false_iff_ne, ne_eq]
        intro he
        exact hn1 (List.mem_map.mpr ⟨(k, v), hm, by simp [he]⟩)
      simp only [List.find?_cons, hk]
      exact ih hm hn2

theorem setKey_absent (fs : List (String × Json)) (k : String) (v : Json)
    (h : ∀ kv ∈ fs, kv.1 ≠ k) : setKey fs k v = fs ++ [(k, v)] := by
  rw [setKey, if_neg]
  simp only [List.any_eq_true, not_exists]
  intro kv hkv
  rcases hkv with ⟨hm, hbeq⟩
  exact h kv hm (by simpa using hbeq)

theorem dictGet_append_of_mem (fs tail : List (String × Json)) (k : String)
    (v : Json) (hm : (k, v) ∈ fs) (hn : (fs.map Prod.fst).Nodup) :
    dictGet (.obj (fs ++ tail)) k = some v := by
  simp only [dictGet, List.find?_append, find?_key_eq fs k v hm hn]
  rfl

theorem construct_audio_eq (audio : List Nat) (b : Bool)
    (h : audio.length < 4294967296) :
    construct_audio_only_request audio b =
      some (17 :: (2 * 16 + (if b then 2 else 0)) :: 0 :: 0 ::
        (be32digits audio.length ++ audio)) := by
  simp [construct_audio_only_request, pack_be32, h]

/-! ## C4: buffers shorter than 12 bytes -/

/-- C4: for every input buffer of fewer than 12 bytes, `parse_response` returns
exactly the "too short" error dict — no header, sequence or payload field is
extracted, whatever the gzip and JSON collaborators do. -/
theorem C4_theorem (gunzip : List Nat → Option (List Nat))
    (jloads : String → Option Json) (data : List Nat) (h : data.length < 12) :
    parse_response gunzip jloads data =
      .ret (.obj [("error", .str "Response too short")]) := by
  simp [parse_response, h]

/-- C4 witness: the empty buffer yields the "too short" error value. -/
theorem C4_witness :
    parse_response gunzipNone jloadsNone [] =
      .ret (.obj [("error", .str "Response too short")]) :=
  C4_theorem gunzipNone jloadsNone [] (by simp)

/-! ## C1: full-client-request / parse_response round trip -/

/-- C1 counterexample: decoding the bytes produced by
`construct_full_client_request` does NOT recover the record.  The client frame
has no sequence field, but `parse_response` expects the server layout
(header, 4-byte sequence, 4-byte size, payload): it therefore reads the size
field as the sequence number and the first four payload bytes (the gzip magic
and header bytes, here of the faithful stand-in `gzipC₀`) as the payload size,
decompression of the mis-sliced payload fails, and the decode falls back to a
raw-garbage record carrying none of the original content.  The first two
conjuncts check the stand-ins really do round-trip gzip and JSON at this
record. -/
theorem C1_counterexample :
    gunzip₀ (gzipC₀ (utf8Encode (jdumps₀ rec₀))) = some (utf8Encode (jdumps₀ rec₀)) ∧
    jloads₀ (jdumps₀ rec₀) = some rec₀ ∧
    construct_full_client_request gzipC₀ jdumps₀ rec₀ =
      some [17, 16, 17, 0, 0, 0, 0, 12, 31, 139, 8, 0, 124, 35, 98, 35, 59, 33, 50, 126] ∧
    parse_response gunzip₀ jloads₀
        [17, 16, 17, 0, 0, 0, 0, 12, 31, 139, 8, 0, 124, 35, 98, 35, 59, 33, 50, 126] =
      .ret (.obj [("_msg_type", .num 1), ("_sequence", .num 12),
        ("raw", .str "|#b#;!2~")]) ∧
    ¬ recoversContent (parse_response gunzip₀ jloads₀
        [17, 16, 17, 0, 0, 0, 0, 12, 31, 139, 8, 0, 124, 35, 98, 35, 59, 33, 50, 126])
      rec₀ := by
  have hps : payloadStr gunzip₀
      [17, 16, 17, 0, 0, 0, 0, 12, 31, 139, 8, 0, 124, 35, 98, 35, 59, 33, 50, 126] =
      "|#b#;!2~" := by
    have h1 : decodedPayload gunzip₀
        [17, 16, 17, 0, 0, 0, 0, 12, 31, 139, 8, 0, 124, 35, 98, 35, 59, 33, 50, 126] =
        [124, 35, 98, 35, 59, 33, 50, 126] := by decide
    have h2 : utf8Tokens [124, 35, 98, 35, 59, 33, 50, 126] =
        [some '|', some '#', some 'b', some '#', some ';', some '!', some '2',
          some '~'] := by
      simp [utf8Tokens]
    rw [payloadStr, h1, utf8Decode, h2]
    rfl
  have hparse : parse_response gunzip₀ jloads₀
      [17, 16, 17, 0, 0, 0, 0, 12, 31, 139, 8, 0, 124, 35, 98, 35, 59, 33, 50, 126] =
      .ret (.obj [("_msg_type", .num 1), ("_sequence", .num 12),
        ("raw", .str "|#b#;!2~")]) := by
    unfold parse_response
    rw [hps]
    rfl
  refine ⟨by decide, rfl, by decide, hparse, ?_⟩
  rw [hparse]
  intro hrc
  simp [recoversContent, rec₀, dictGet] at hrc


/-- C1 amended: the decode recovers the record's JSON content once the frame
carries the 4-byte sequence field of the server layout `parse_response`
expects (inserted between the client frame's header and size field).  For any
gzip and JSON collaborators that round-trip on this record (with ASCII
`json.dumps` output, as CPython produces by default), and any JSON-object
record whose keys are distinct and do not collide with the decoder's
`_msg_type`/`_sequence` bookkeeping keys, every original field survives into
the decoded result. -/
theorem C1_theorem (gzipC : List Nat → List Nat)
    (gunzip : List Nat → Option (List Nat)) (jdumps : Json → String)
    (jloads : String → Option Json) (fs : List (String × Json))
    (seqB : List Nat) (msg : List Nat)
    (hmsg : construct_full_client_request gzipC jdumps (.obj fs) = some msg)
    (hseq : seqB.length = 4)
    (hgz : gunzip (gzipC (utf8Encode (jdumps (.obj fs)))) =
      some (utf8Encode (jdumps (.obj fs))))
    (hascii : ∀ c ∈ (jdumps (.obj fs)).toList, c.toNat < 128)
    (hloads : jloads (jdumps (.obj fs)) = some (.obj fs))
    (hkeys : ∀ kv ∈ fs, kv.1 ≠ "_msg_type" ∧ kv.1 ≠ "_sequence")
    (hnodup : (fs.map Prod.fst).Nodup) :
    recoversContent (parse_response gunzip jloads (insertSeq seqB msg)) (.obj fs) := by
  simp only [construct_full_client_request, pack_be32] at hmsg
  by_cases hlen : (gzipC (utf8Encode (jdumps (.obj fs)))).length < 4294967296
  case neg =>
    rw [if_neg hlen] at hmsg
    simp at hmsg
  rw [if_pos hlen] at hmsg
  simp only [Option.map_some', Option.some.injEq] at hmsg
  have hmsg' : msg = [17, 16, 17, 0] ++
      be32digits (gzipC (utf8Encode (jdumps (.obj fs)))).length ++
      gzipC (utf8Encode (jdumps (.obj fs))) := hmsg.symm
  subst hmsg'
  rcases seqB with _ | ⟨s0, seqB⟩; · simp at hseq
  rcases seqB with _ | ⟨s1, seqB⟩; · simp at hseq
  rcases seqB with _ | ⟨s2, seqB⟩; · simp at hseq
  rcases seqB with _ | ⟨s3, seqB⟩; · simp at hseq
  obtain rfl : seqB = [] := by
    cases seqB with
    | nil => rfl
    | cons s4 t => exact absurd hseq (by simp only [List.length_cons]; omega)
  have hins : insertSeq [s0, s1, s2, s3]
      ([17, 16, 17, 0] ++
        be32digits (gzipC (utf8Encode (jdumps (.obj fs)))).length ++
        gzipC (utf8Encode (jdumps (.obj fs)))) =
      17 :: 16 :: 17 :: 0 :: s0 :: s1 :: s2 :: s3 ::
        (be32digits (gzipC (utf8Encode (jdumps (.obj fs)))).length ++
          gzipC (utf8Encode (jdumps (.obj fs)))) := rfl
  rw [hins]
  set gz := gzipC (utf8Encode (jdumps (.obj fs))) with hgzd
  set data := 17 :: 16 :: 17 :: 0 :: s0 :: s1 :: s2 :: s3 ::
    (be32digits gz.length ++ gz) with hdata
  have hsize : payloadSizeOf data = gz.length := by
    show unpack_be32 (be32digits gz.length) = gz.length
    exact unpack_be32_digits _ hlen
  have hraw : rawPayload data = gz := by
    rw [rawPayload, hsize]
    show gz.take gz.length = gz
    exact List.take_length gz
  have hcomp : compressionOf data = 1 := by
    rw [hdata]
    simp [compressionOf, List.getD_cons_succ, List.getD_cons_zero]
  have hdp : decodedPayload gunzip data = utf8Encode (jdumps (.obj fs)) := by
    rw [decodedPayload, if_pos hcomp, hraw, hgz]
    rfl
  have hpstr : payloadStr gunzip data = jdumps (.obj fs) := by
    rw [payloadStr, hdp, utf8Decode_encode false _ hascii, stringMk_toList]
  have hlt : ¬ data.length < 12 := by
    rw [hdata]
    simp [be32digits]
  have hpr : parse_response gunzip jloads data =
      .ret (.obj (setKey (setKey fs "_msg_type" (.num (msgTypeOf data)))
        "_sequence" (.num (sequenceOf data)))) := by
    simp [parse_response, hlt, hpstr, hloads]
  rw [hpr]
  have hset1 : setKey fs "_msg_type" (.num (msgTypeOf data)) =
      fs ++ [("_msg_type", .num (msgTypeOf data))] :=
    setKey_absent _ _ _ (fun kv hm => (hkeys kv hm).1)
  have hset2 : setKey (fs ++ [("_msg_type", (.num (msgTypeOf data) : Json))])
      "_sequence" (.num (sequenceOf data)) =
      (fs ++ [("_msg_type", .num (msgTypeOf data))]) ++
        [("_sequence", .num (sequenceOf data))] := by
    apply setKey_absent
    intro kv hm
    rcases List.mem_append.mp hm with hmm | hmm
    · exact (hkeys kv hmm).2
    · simp at hmm
      subst hmm
      simp
  rw [hset1, hset2]
  intro kv hkv
  rw [List.append_assoc]
  exact dictGet_append_of_mem fs _ kv.1 kv.2 hkv hnodup


/-- C1 witness: the amended round trip evaluated at the record
`{"a": 1}` with the concrete gzip/JSON stand-ins. -/
theorem C1_witness :
    recoversContent (parse_response gunzip₀ jloads₀ (insertSeq [0, 0, 0, 7]
        [17, 16, 17, 0, 0, 0, 0, 12, 31, 139, 8, 0, 124, 35, 98, 35, 59, 33, 50, 126]))
      (.obj [("a", .num 1)]) :=
  C1_theorem gzipC₀ gunzip₀ jdumps₀ jloads₀ [("a", .num 1)] [0, 0, 0, 7]
    [17, 16, 17, 0, 0, 0, 0, 12, 31, 139, 8, 0, 124, 35, 98, 35, 59, 33, 50, 126]
    (by decide) rfl (by decide) (by decide) rfl (by decide) (by decide)

/-! ## C2: decoding of buffers of at least 12 bytes -/

/-- C2 counterexample: frame decoding CAN fail on a buffer of at least 12
bytes.  On the 13-byte frame whose payload is `"5"`, the payload parses as the
JSON value `5` — not a dict — so `result["_msg_type"] = msg_type` raises a
`TypeError` that `except json.JSONDecodeError` does not catch and the decode
aborts instead of returning a result. -/
theorem C2_counterexample :
    12 ≤ ([17, 144, 0, 0, 0, 0, 0, 7, 0, 0, 0, 1, 53] : List Nat).length ∧
    jloads5 (payloadStr gunzipNone [17, 144, 0, 0, 0, 0, 0, 7, 0, 0, 0, 1, 53]) =
      some (.num 5) ∧
    parse_response gunzipNone jloads5 [17, 144, 0, 0, 0, 0, 0, 7, 0, 0, 0, 1, 53] =
      .exn := by
  refine ⟨by simp, ?_, ?_⟩ <;>
    simp [parse_response, payloadStr, decodedPayload, rawPayload, payloadSizeOf,
      unpack_be32, compressionOf, utf8Decode, utf8Tokens, jloads5]

/-- C2 amended: for every buffer of at least 12 bytes whose (possibly
decompressed) payload parses as a JSON OBJECT, the decode returns that object
with the message type and sequence number attached; whenever JSON parsing
fails, it returns the fallback record carrying the raw text together with the
message type and sequence number.  (A payload parsing as a non-object JSON
value instead raises an uncaught TypeError.) -/
theorem C2_theorem (gunzip : List Nat → Option (List Nat))
    (jloads : String → Option Json) (data : List Nat) (h : 12 ≤ data.length) :
    (∀ fs, jloads (payloadStr gunzip data) = some (.obj fs) →
      parse_response gunzip jloads data =
        .ret (.obj (setKey (setKey fs "_msg_type" (.num (msgTypeOf data)))
          "_sequence" (.num (sequenceOf data))))) ∧
    (jloads (payloadStr gunzip data) = none →
      parse_response gunzip jloads data =
        .ret (.obj [("_msg_type", .num (msgTypeOf data)),
          ("_sequence", .num (sequenceOf data)),
          ("raw", .str (payloadStr gunzip data))])) := by
  have hlt : ¬ data.length < 12 := by omega
  constructor
  · intro fs hj
    simp [parse_response, hlt, hj]
  · intro hj
    simp [parse_response, hlt, hj]

/-- C2 witness: a concrete 12-byte frame with an empty (unparsable) payload
decodes to the fallback record. -/
theorem C2_witness :
    parse_response gunzipNone jloadsNone [17, 144, 0, 0, 0, 0, 0, 3, 0, 0, 0, 0] =
      .ret (.obj [("_msg_type", .num (msgTypeOf [17, 144, 0, 0, 0, 0, 0, 3, 0, 0, 0, 0])),
        ("_sequence", .num (sequenceOf [17, 144, 0, 0, 0, 0, 0, 3, 0, 0, 0, 0])),
        ("raw", .str (payloadStr gunzipNone [17, 144, 0, 0, 0, 0, 0, 3, 0, 0, 0, 0]))]) :=
  (C2_theorem gunzipNone jloadsNone [17, 144, 0, 0, 0, 0, 0, 3, 0, 0, 0, 0]
    (by simp)).2 rfl

/-! ## C5: declared payload size beyond the buffer -/

/-- C5 counterexample: the truncation itself is safe, but "decoding still
produces a result" fails.  On a 13-byte frame declaring a 256-byte payload of
which only the byte `"5"` is present, the truncated payload parses as the
non-object JSON value `5` and the decode aborts with an uncaught TypeError
instead of producing a result. -/
theorem C5_counterexample :
    payloadSizeOf [17, 144, 0, 0, 0, 0, 0, 2, 0, 0, 1, 0, 53] = 256 ∧
    ([17, 144, 0, 0, 0, 0, 0, 2, 0, 0, 1, 0, 53] : List Nat).length - 12 = 1 ∧
    parse_response gunzipNone jloads5 [17, 144, 0, 0, 0, 0, 0, 2, 0, 0, 1, 0, 53] =
      .exn := by
  refine ⟨?_, by simp, ?_⟩ <;>
    simp [parse_response, payloadStr, decodedPayload, rawPayload, payloadSizeOf,
      unpack_be32, compressionOf, utf8Decode, utf8Tokens, jloads5]

/-- C5 amended: for every buffer of at least 12 bytes whose declared 4-byte
payload size exceeds the bytes remaining after offset 12, the payload slice is
silently truncated to exactly the available bytes (`data[12:]` — nothing
beyond the buffer is read), and decoding produces a result whenever the
truncated payload parses as a JSON object or fails to parse as JSON. -/
theorem C5_theorem (gunzip : List Nat → Option (List Nat))
    (jloads : String → Option Json) (data : List Nat) (h : 12 ≤ data.length)
    (hover : data.length - 12 < payloadSizeOf data) :
    rawPayload data = data.drop 12 ∧
    (∀ fs, jloads (payloadStr gunzip data) = some (.obj fs) →
      ∃ j, parse_response gunzip jloads data = .ret j) ∧
    (jloads (payloadStr gunzip data) = none →
      ∃ j, parse_response gunzip jloads data = .ret j) := by
  have hlt : ¬ data.length < 12 := by omega
  refine ⟨?_, ?_, ?_⟩
  · apply List.take_of_length_le
    simp only [List.length_drop]
    omega
  · intro fs hj
    exact ⟨.obj (setKey (setKey fs "_msg_type" (.num (msgTypeOf data)))
      "_sequence" (.num (sequenceOf data))), by simp [parse_response, hlt, hj]⟩
  · intro hj
    exact ⟨.obj [("_msg_type", .num (msgTypeOf data)),
      ("_sequence", .num (sequenceOf data)),
      ("raw", .str (payloadStr gunzip data))], by simp [parse_response, hlt, hj]⟩

/-- C5 witness: a concrete frame declaring 256 payload bytes with only one
present is truncated to that byte and still decodes to a returned value. -/
theorem C5_witness :
    rawPayload [17, 144, 0, 0, 0, 0, 0, 2, 0, 0, 1, 0, 255] =
      ([17, 144, 0, 0, 0, 0, 0, 2, 0, 0, 1, 0, 255] : List Nat).drop 12 ∧
    (∃ j, parse_response gunzipNone jloadsNone
      [17, 144, 0, 0, 0, 0, 0, 2, 0, 0, 1, 0, 255] = .ret j) := by
  have h := C5_theorem gunzipNone jloadsNone
    [17, 144, 0, 0, 0, 0, 0, 2, 0, 0, 1, 0, 255] (by simp)
    (by simp [payloadSizeOf, unpack_be32])
  exact ⟨h.1, h.2.2 rfl⟩

/-! ## C6: swallowed gzip decompression failures -/

/-- C6 counterexample: a frame flagged as gzip with an invalid gzip payload
does pass the payload through unmodified, but "the whole decode never aborts"
fails: when the passed-through payload parses as the non-object JSON value
`5`, the decode aborts with an uncaught TypeError. -/
theorem C6_counterexample :
    compressionOf [17, 144, 1, 0, 0, 0, 0, 9, 0, 0, 0, 1, 53] = 1 ∧
    gunzip₀ (rawPayload [17, 144, 1, 0, 0, 0, 0, 9, 0, 0, 0, 1, 53]) = none ∧
    parse_response gunzip₀ jloads5 [17, 144, 1, 0, 0, 0, 0, 9, 0, 0, 0, 1, 53] =
      .exn := by
  refine ⟨rfl, ?_, ?_⟩ <;>
    simp [parse_response, payloadStr, decodedPayload, rawPayload, payloadSizeOf,
      unpack_be32, compressionOf, utf8Decode, utf8Tokens, jloads5, gunzip₀]

/-- C6 amended: for every frame of at least 12 bytes whose header indicates
gzip compression but whose payload fails to decompress, the failure is
swallowed and the payload is passed through unmodified, and the decode
produces a result whenever the passed-through payload parses as a JSON object
or fails to parse as JSON. -/
theorem C6_theorem (gunzip : List Nat → Option (List Nat))
    (jloads : String → Option Json) (data : List Nat) (h : 12 ≤ data.length)
    (hcomp : compressionOf data = 1)
    (hgz : gunzip (rawPayload data) = none) :
    decodedPayload gunzip data = rawPayload data ∧
    (∀ fs, jloads (payloadStr gunzip data) = some (.obj fs) →
      ∃ j, parse_response gunzip jloads data = .ret j) ∧
    (jloads (payloadStr gunzip data) = none →
      ∃ j, parse_response gunzip jloads data = .ret j) := by
  have hlt : ¬ data.length < 12 := by omega
  refine ⟨by simp [decodedPayload, hcomp, hgz], ?_, ?_⟩
  · intro fs hj
    exact ⟨.obj (setKey (setKey fs "_msg_type" (.num (msgTypeOf data)))
      "_sequence" (.num (sequenceOf data))), by simp [parse_response, hlt, hj]⟩
  · intro hj
    exact ⟨.obj [("_msg_type", .num (msgTypeOf data)),
      ("_sequence", .num (sequenceOf data)),
      ("raw", .str (payloadStr gunzip data))], by simp [parse_response, hlt, hj]⟩

/-- C6 witness: a concrete gzip-flagged frame whose empty payload fails to
decompress is passed through and still decodes to a returned value. -/
theorem C6_witness :
    decodedPayload gunzipNone [17, 144, 1, 0, 0, 0, 0, 4, 0, 0, 0, 0] =
      rawPayload [17, 144, 1, 0, 0, 0, 0, 4, 0, 0, 0, 0] ∧
    (∃ j, parse_response gunzipNone jloadsNone
      [17, 144, 1, 0, 0, 0, 0, 4, 0, 0, 0, 0] = .ret j) := by
  have h := C6_theorem gunzipNone jloadsNone [17, 144, 1, 0, 0, 0, 0, 4, 0, 0, 0, 0]
    (by simp) rfl rfl
  exact ⟨h.1, h.2.2 rfl⟩

/-! ## C7: UTF-8 error handling of the payload -/

/-- C7 counterexample: the source decodes with `errors="ignore"`, not
`errors="replace"`.  On the 13-byte frame whose 1-byte payload is the invalid
UTF-8 byte 0xFF, the decoder produces the empty string, while replacing the
invalid sequence with the replacement marker (as the claim states) would
produce "�"; the fallback result carries the empty raw text. -/
theorem C7_counterexample :
    decodedPayload gunzipNone [17, 144, 0, 0, 0, 0, 0, 1, 0, 0, 0, 1, 255] = [255] ∧
    payloadStr gunzipNone [17, 144, 0, 0, 0, 0, 0, 1, 0, 0, 0, 1, 255] = "" ∧
    String.mk (utf8Decode true [255]) = "�" ∧
    payloadStr gunzipNone [17, 144, 0, 0, 0, 0, 0, 1, 0, 0, 0, 1, 255] ≠
      String.mk (utf8Decode true
        (decodedPayload gunzipNone [17, 144, 0, 0, 0, 0, 0, 1, 0, 0, 0, 1, 255])) ∧
    parse_response gunzipNone jloadsNone [17, 144, 0, 0, 0, 0, 0, 1, 0, 0, 0, 1, 255] =
      .ret (.obj [("_msg_type", .num 9), ("_sequence", .num 1), ("raw", .str "")]) := by
  refine ⟨by simp [decodedPayload, rawPayload, payloadSizeOf, unpack_be32, compressionOf],
    by simp [payloadStr, decodedPayload, rawPayload, payloadSizeOf, unpack_be32,
      compressionOf, utf8Decode, utf8Tokens],
    by simp [utf8Decode, utf8Tokens],
    by simp [payloadStr, decodedPayload, rawPayload, payloadSizeOf, unpack_be32,
      compressionOf, utf8Decode, utf8Tokens],
    by simp [parse_response, payloadStr, decodedPayload, rawPayload, payloadSizeOf,
      unpack_be32, compressionOf, msgTypeOf, sequenceOf, utf8Decode, utf8Tokens, jloadsNone]⟩

/-- C7 amended: the (possibly decompressed) payload bytes are decoded as UTF-8
text with invalid byte sequences dropped (ignored) rather than rejected: the
string `parse_response` works on is exactly the ignore-mode decoding, which is
always defined and is a sublist of the replace-mode decoding (every character
it keeps comes from a validly decoded sequence; invalid sequences contribute
nothing instead of a replacement marker). -/
theorem C7_theorem (gunzip : List Nat → Option (List Nat)) (data : List Nat) :
    payloadStr gunzip data =
      String.mk (utf8Decode false (decodedPayload gunzip data)) ∧
    (utf8Decode false (decodedPayload gunzip data)).Sublist
      (utf8Decode true (decodedPayload gunzip data)) :=
  ⟨rfl, utf8Decode_ignore_sublist _⟩

/-! ## C8: which header byte holds the compression nibble -/

/-- C8 counterexample: the decoder does NOT read the compression method from
the low nibble of the fourth header byte (offset 3).  On a 17-byte frame whose
byte at offset 2 is 0 but whose byte at offset 3 is 1, with a well-formed gzip
payload, reading offset 3 (as the claim's layout states) would decompress the
payload to `[65]`, while `parse_response`'s gzip stage leaves it untouched:
the two extractions disagree. -/
theorem C8_counterexample :
    decodedPayload gunzip₀
        [17, 144, 0, 1, 0, 0, 0, 0, 0, 0, 0, 5, 31, 139, 8, 0, 66] =
      [31, 139, 8, 0, 66] ∧
    decodedPayloadSpecOffset3 gunzip₀
        [17, 144, 0, 1, 0, 0, 0, 0, 0, 0, 0, 5, 31, 139, 8, 0, 66] = [65] ∧
    decodedPayload gunzip₀
        [17, 144, 0, 1, 0, 0, 0, 0, 0, 0, 0, 5, 31, 139, 8, 0, 66] ≠
      decodedPayloadSpecOffset3 gunzip₀
        [17, 144, 0, 1, 0, 0, 0, 0, 0, 0, 0, 5, 31, 139, 8, 0, 66] := by
  refine ⟨?_, ?_, ?_⟩ <;>
    simp [decodedPayload, decodedPayloadSpecOffset3, rawPayload, payloadSizeOf,
      unpack_be32, compressionOf, gunzip₀]

/-- C8 amended: the decoder extracts the compression method from the low
nibble of the THIRD header byte (offset 2); the byte at offset 3 is never
read — replacing it by anything leaves the whole decode unchanged. -/
theorem C8_theorem (gunzip : List Nat → Option (List Nat))
    (jloads : String → Option Json) (data : List Nat) (b : Nat)
    (h : 12 ≤ data.length) :
    compressionOf data = data.getD 2 0 % 16 ∧
    decodedPayload gunzip data =
      (if data.getD 2 0 % 16 = 1 then (gunzip (rawPayload data)).getD (rawPayload data)
       else rawPayload data) ∧
    parse_response gunzip jloads data =
      parse_response gunzip jloads (data.set 3 b) := by
  refine ⟨rfl, rfl, ?_⟩
  rcases data with _ | ⟨a0, _ | ⟨a1, _ | ⟨a2, _ | ⟨a3, rest⟩⟩⟩⟩
  · simp at h
  · simp at h
  · simp at h
  · simp at h
  · rfl

/-- C8 witness: on a concrete 12-byte frame the decode is invariant under
rewriting the byte at offset 3. -/
theorem C8_witness :
    parse_response gunzipNone jloadsNone [17, 144, 1, 0, 0, 0, 0, 0, 0, 0, 0, 0] =
      parse_response gunzipNone jloadsNone
        (([17, 144, 1, 0, 0, 0, 0, 0, 0, 0, 0, 0] : List Nat).set 3 9) :=
  (C8_theorem gunzipNone jloadsNone [17, 144, 1, 0, 0, 0, 0, 0, 0, 0, 0, 0] 9
    (by simp)).2.2

/-! ## C9: audio-only request encoding -/

/-- C9 counterexample: the claim quantifies over every audio byte sequence, but
on audio of length 2^32 the 4-byte length field cannot be produced —
`struct.pack(">I", len(audio_data))` raises `struct.error` (modelled by
`none`) and no bytes at all are produced. -/
theorem C9_counterexample :
    construct_audio_only_request (List.replicate 4294967296 0) false = none := by
  have h : pack_be32 (List.replicate 4294967296 (0 : Nat)).length = none := by
    rw [List.length_replicate]
    simp [pack_be32]
  simp only [construct_audio_only_request, h, Option.map_none']

/-- C9 amended: for every audio byte sequence of length below 2^32 and every
`isFinal` flag, `construct_audio_only_request` produces exactly the header
`[0x11, (0x2<<4)|flag, 0x00, 0x00]` (flag `0b0010` iff final), the raw length
as 4 big-endian bytes, then the audio verbatim, and the length and flag bit
are recoverable from the encoding. -/
theorem C9_theorem (audio : List Nat) (is_last : Bool)
    (h : audio.length < 4294967296) :
    construct_audio_only_request audio is_last =
      some (17 :: (2 * 16 + (if is_last then 2 else 0)) :: 0 :: 0 ::
        (be32digits audio.length ++ audio)) ∧
    ∀ msg, construct_audio_only_request audio is_last = some msg →
      unpack_be32 ((msg.drop 4).take 4) = audio.length ∧
      msg.getD 1 0 % 16 = (if is_last then 2 else 0) ∧
      msg.getD 1 0 / 16 = 2 := by
  have h1 := construct_audio_eq audio is_last h
  refine ⟨h1, fun msg hm => ?_⟩
  rw [h1] at hm
  cases hm
  refine ⟨?_, ?_, ?_⟩
  · show unpack_be32 ((be32digits audio.length ++ audio).take 4) = audio.length
    rw [show (4 : Nat) = (be32digits audio.length).length from by simp [be32digits],
      List.take_left]
    exact unpack_be32_digits audio.length h
  · cases is_last <;> simp [List.getD]
  · cases is_last <;> simp [List.getD]

/-! ## C3: audio chunking -/

theorem sendAudio_nil : sendAudio [] = [] := by
  rw [sendAudio.eq_def]
  rfl

theorem cons_replicate_append (k : Nat) (hk : 1 ≤ k) (x : Bool) (tail : List Bool) :
    x :: (List.replicate (k - 1) x ++ tail) = List.replicate k x ++ tail := by
  conv_rhs => rw [show k = (k - 1) + 1 from by omega]
  simp [List.replicate_succ]

theorem sendAudio_spec_aux :
    ∀ n (audio : List Nat), audio.length ≤ n → 1 ≤ audio.length →
    (sendAudio audio).length = (audio.length + 16000 - 1) / 16000 ∧
    (sendAudio audio).map isFinalFrame =
      List.replicate ((audio.length + 16000 - 1) / 16000 - 1) false ++ [true] := by
  intro n
  induction n with
  | zero => intro audio h1 h2; omega
  | succ n ih =>
    intro audio h1 h2
    have hne : audio.isEmpty = false := by
      cases audio
      · simp at h2
      · rfl
    have htk : (audio.take 16000).length < 4294967296 := by
      simp only [List.length_take]
      omega
    have hc := construct_audio_eq (audio.take 16000)
      (decide (audio.length ≤ 16000)) htk
    rw [sendAudio.eq_def, hne]
    simp only [Bool.false_eq_true, if_false, hc, Option.elim]
    by_cases hle : audio.length ≤ 16000
    · have hd : audio.drop 16000 = [] := List.drop_eq_nil_of_le (by omega)
      rw [hd, sendAudio_nil]
      have hceil : (audio.length + 16000 - 1) / 16000 = 1 := by omega
      rw [hceil]
      constructor
      · rfl
      · simp [isFinalFrame, List.getD, hle]
    · have hd1 : (audio.drop 16000).length ≤ n := by
        simp only [List.length_drop]
        omega
      have hd2 : 1 ≤ (audio.drop 16000).length := by
        simp only [List.length_drop]
        omega
      obtain ⟨ihl, ihm⟩ := ih (audio.drop 16000) hd1 hd2
      rw [List.length_drop] at ihl ihm
      constructor
      · simp only [List.length_cons, ihl]
        omega
      · simp only [List.map_cons, ihm]
        have hflag : isFinalFrame (17 :: (2 * 16 +
            (if decide (audio.length ≤ 16000) = true then 2 else 0)) :: 0 :: 0 ::
            (be32digits (audio.take 16000).length ++ audio.take 16000)) = false := by
          simp [isFinalFrame, List.getD, hle]
        rw [hflag]
        have hceil : (audio.length + 16000 - 1) / 16000 - 1 =
            (audio.length - 16000 + 16000 - 1) / 16000 := by omega
        rw [hceil]
        exact cons_replicate_append _ (by omega) false [true]

/-- C3 counterexample: on empty audio the loop body never runs — zero frames
are emitted (which matches ceil(0/16000) = 0) and the final-chunk flag is
set on NO frame, not on exactly one. -/
theorem C3_counterexample :
    sendAudio [] = [] ∧ (sendAudio []).countP isFinalFrame = 0 ∧
    ¬ (sendAudio []).countP isFinalFrame = 1 := by
  refine ⟨sendAudio_nil, ?_, ?_⟩ <;> rw [sendAudio_nil] <;> simp

/-- C3 amended: for every NON-EMPTY audio byte sequence of length L and chunk
size 16000, the sending loop emits exactly ceil(L/16000) audio-only frames and
the final-chunk flag is set on exactly the last of them (for L = 0 no frame is
emitted at all, so no frame carries the flag). -/
theorem C3_theorem (audio : List Nat) (h : 1 ≤ audio.length) :
    (sendAudio audio).length = (audio.length + 16000 - 1) / 16000 ∧
    (sendAudio audio).map isFinalFrame =
      List.replicate ((audio.length + 16000 - 1) / 16000 - 1) false ++ [true] :=
  sendAudio_spec_aux audio.length audio (le_refl _) h

/-- C3 witness: a one-byte audio sequence produces one frame, flagged final. -/
theorem C3_witness :
    (sendAudio [0]).length = (([0] : List Nat).length + 16000 - 1) / 16000 ∧
    (sendAudio [0]).map isFinalFrame =
      List.replicate ((([0] : List Nat).length + 16000 - 1) / 16000 - 1) false ++
        [true] :=
  C3_theorem [0] (by simp)

/-- C9 witness: a concrete 3-byte final chunk. -/
theorem C9_witness :
    construct_audio_only_request [7, 8, 9] true =
      some (17 :: (2 * 16 + (if true then 2 else 0)) :: 0 :: 0 ::
        (be32digits ([7, 8, 9] : List Nat).length ++ [7, 8, 9])) :=
  (C9_theorem [7, 8, 9] true (by simp)).1

/-! ## C10: empty or whitespace-only ASR text -/

/-- C10: on a decoded ASR-result frame (message type 9) whose `result.text`
strips to the empty string, the receive-loop body neither updates the captured
text nor breaks — whatever the `utterances` field holds, including a first
utterance marked definite; and conversely, whenever the body breaks out of a
message-type-9 frame, the frame carried a `text` string with non-empty
stripped content, which becomes the captured text. -/
theorem C10_theorem :
    (∀ (result : Json) (ft : String) (fs : List (String × Json)) (s : String),
      dictGet result "_msg_type" = some (.num 9) →
      dictGet result "result" = some (.obj fs) →
      dictGet (.obj fs) "text" = some (.str s) →
      pyStrip s = "" →
      recvStep result ft = .ok ft false) ∧
    (∀ (result : Json) (ft ft' : String),
      dictGet result "_msg_type" = some (.num 9) →
      recvStep result ft = .ok ft' true →
      ∃ fs s, dictGet result "result" = some (.obj fs) ∧
        dictGet (.obj fs) "text" = some (.str s) ∧
        pyStrip s ≠ "" ∧ ft' = pyStrip s) := by
  constructor
  · intro result ft fs s hmt hres htext hstrip
    simp [recvStep, hmt, hres, htext, hstrip, pyEqNum]
  · intro result ft ft' hmt hstep
    simp only [recvStep, hmt, Option.getD_some] at hstep
    norm_num [pyEqNum] at hstep
    cases hres : dictGet result "result" with
    | none =>
      rw [hres] at hstep
      simp only [] at hstep
      exact absurd (AsrStep.ok.inj hstep).2 (by simp)
    | some res =>
      rw [hres] at hstep
      simp only [] at hstep
      cases res with
      | obj resFields =>
        simp only [] at hstep
        cases htj : (dictGet (.obj resFields) "text").getD (.str "") with
        | str s =>
          rw [htj] at hstep
          simp only [] at hstep
          by_cases hstrip : pyStrip s = ""
          · rw [if_pos hstrip] at hstep
            exact absurd (AsrStep.ok.inj hstep).2 (by simp)
          · rw [if_neg hstrip] at hstep
            have htext : dictGet (.obj resFields) "text" = some (.str s) := by
              cases hdt : dictGet (.obj resFields) "text" with
              | none =>
                rw [hdt] at htj
                exfalso
                apply hstrip
                have hs : s = "" := by
                  have h' := htj
                  simp [Option.getD] at h'
                  exact h'.symm
                rw [hs]
                rfl
              | some tj =>
                rw [hdt] at htj
                simp [Option.getD] at htj
                rw [htj]
            refine ⟨resFields, s, rfl, htext, hstrip, ?_⟩
            repeat' split at hstep
            all_goals first
              | exact AsrStep.noConfusion hstep
              | exact (AsrStep.ok.inj hstep).1.symm
        | null =>
          rw [htj] at hstep
          simp only [] at hstep
          exact AsrStep.noConfusion hstep
        | bool b =>
          rw [htj] at hstep
          simp only [] at hstep
          exact AsrStep.noConfusion hstep
        | num n =>
          rw [htj] at hstep
          simp only [] at hstep
          exact AsrStep.noConfusion hstep
        | arr l =>
          rw [htj] at hstep
          simp only [] at hstep
          exact AsrStep.noConfusion hstep
        | obj o =>
          rw [htj] at hstep
          simp only [] at hstep
          exact AsrStep.noConfusion hstep
      | null => simp only [] at hstep; exact absurd (AsrStep.ok.inj hstep).2 (by simp)
      | bool b => simp only [] at hstep; exact absurd (AsrStep.ok.inj hstep).2 (by simp)
      | num n => simp only [] at hstep; exact absurd (AsrStep.ok.inj hstep).2 (by simp)
      | str s2 => simp only [] at hstep; exact absurd (AsrStep.ok.inj hstep).2 (by simp)
      | arr l => simp only [] at hstep; exact absurd (AsrStep.ok.inj hstep).2 (by simp)


/-- C10 witness: a whitespace-only definite frame leaves `"prev"` untouched
without breaking, and a frame carrying `" hi "` with a definite utterance is
exactly what a break requires. -/
theorem C10_witness :
    recvStep (.obj [("_msg_type", .num 9), ("result", .obj [("text", .str "   "),
        ("utterances", .arr [.obj [("definite", .bool true)]])])]) "prev" =
      .ok "prev" false ∧
    (∃ fs s,
      dictGet (.obj [("_msg_type", .num 9), ("result", .obj [("text", .str " hi "),
          ("utterances", .arr [.obj [("definite", .bool true)]])])]) "result" =
        some (.obj fs) ∧
      dictGet (.obj fs) "text" = some (.str s) ∧ pyStrip s ≠ "" ∧
      "hi" = pyStrip s) :=
  ⟨C10_theorem.1
      (.obj [("_msg_type", .num 9), ("result", .obj [("text", .str "   "),
        ("utterances", .arr [.obj [("definite", .bool true)]])])]) "prev"
      [("text", .str "   "), ("utterances", .arr [.obj [("definite", .bool true)]])]
      "   " rfl rfl rfl (by decide),
    C10_theorem.2
      (.obj [("_msg_type", .num 9), ("result", .obj [("text", .str " hi "),
        ("utterances", .arr [.obj [("definite", .bool true)]])])]) "prev" "hi"
      rfl (by decide)⟩
